import Mathlib

/-!
Shallow embedding of the checkmate-lsp plugin orchestration engine
(src/lsp.rs, src/plugins.rs, src/plugins/{eslint,phpcs,phpstan,stylelint}.rs).

External boundaries are modelled explicitly:
* the filesystem / process probe results seen by the discovery probes are a
  `ProbeEnv` of boolean oracles (`metadata(path).is_ok()` and
  `Command::new(name).spawn().is_ok()`);
* a subprocess invocation result is a `ProcOutput` (captured stdout bytes and
  stderr text); a failed spawn is `none`, on which the source calls
  `.expect("failed to execute process")`, i.e. panics;
* serde_json parsing of stdout is an abstract `parse` function argument
  returning `none` on parse failure; `serde_json::from_slice(..).unwrap_or_default()`
  becomes `(parse bytes).getD <default report>`.

Rust panics are modelled as `Except` errors. Report structures keep only the
fields the run functions read; serde-only fields that are parsed but never
inspected are omitted because parsing itself is abstract here.
-/

namespace Checkmate

/-- LSP diagnostic severity (tower_lsp::lsp_types::DiagnosticSeverity). -/
inductive DiagnosticSeverity where
  | error
  | warning
  | information
  | hint
deriving DecidableEq, Repr

/-- LSP position (line/character are u32; values stay far below 2^32 here). -/
structure LspPos where
  line : Nat
  character : Nat
deriving DecidableEq, Repr

/-- LSP range; the source field named `end` is called `stop` (reserved word). -/
structure LspRange where
  start : LspPos
  stop : LspPos
deriving DecidableEq, Repr

/-- Canonical published diagnostic (the fields the source sets). -/
structure Diagnostic where
  range : LspRange
  severity : Option DiagnosticSeverity
  message : String
deriving DecidableEq, Repr

/-- plugins.rs `PluginSetting`. -/
structure PluginSetting where
  cmd : String
  args : List String
  filetypes : List String
deriving DecidableEq, Repr

/-- plugins.rs `Default for PluginSetting`. -/
def PluginSetting.defaultSetting : PluginSetting :=
  { cmd := "", args := [], filetypes := [] }

/-- plugins.rs `Position` (u32 fields). -/
structure PluginPosition where
  line : Nat
  column : Nat
  line_end : Nat
  column_end : Nat
deriving DecidableEq, Repr

/-- plugins.rs `PluginLineOutput`. -/
structure PluginLineOutput where
  position : PluginPosition
  text : String
  severity : DiagnosticSeverity
deriving DecidableEq, Repr

/-- plugins.rs `PluginOutput`. -/
structure PluginOutput where
  messages : List PluginLineOutput
deriving DecidableEq, Repr

/-! ### Settings resolver (lsp.rs `initialized`, lines 115-142) -/

/-- The merge of a discovered default `PluginSetting` with the client override,
exactly as lsp.rs lines 117-142: `cmd` is replaced by a non-empty override;
override `args` are pushed after the defaults; a non-empty override
`filetypes` list is ALSO pushed after the defaults (the code clones the
default list and appends), while an empty override keeps the defaults. -/
def mergePluginSettings (defaultSetting settings : PluginSetting) : PluginSetting :=
  { cmd := if settings.cmd = "" then defaultSetting.cmd else settings.cmd,
    args := defaultSetting.args ++ settings.args,
    filetypes :=
      if settings.filetypes = [] then defaultSetting.filetypes
      else defaultSetting.filetypes ++ settings.filetypes }

/-- lsp.rs `parse_client_editor_settings`: the raw `args` string is split on
the space character (Rust `split(' ')`; an empty string yields `[""]`). -/
def splitArgsSetting (s : String) : List String := s.splitOn " "

/-- lsp.rs `parse_client_editor_settings`: the raw `filetypes` string is split
on the comma (Rust `split(',')`; an empty string yields `[""]`). -/
def splitFiletypesSetting (s : String) : List String := s.splitOn ","

/-! ### Discovery probes (`is_installed` of each adapter) -/

/-- Outcomes of the external checks a probe performs: `pathExists p` models
`metadata(p).is_ok()` and `spawnOk name` models `Command::new(name).spawn().is_ok()`. -/
structure ProbeEnv where
  pathExists : String → Bool
  spawnOk : String → Bool

/-- Each probe strips the `file://` scheme from the stored root uri
(`.replace("file://", "")`). -/
def stripFileScheme (uri : String) : String := uri.replace "file://" ""

/-- eslint.rs `is_installed`: only the project-local
`node_modules/.bin/eslint` path is probed; there is no global fallback. -/
def eslintIsInstalled (env : ProbeEnv) (rootUri : String) : Option PluginSetting :=
  let projectRoot := stripFileScheme rootUri
  let projectEslint := projectRoot ++ "/node_modules/.bin/eslint"
  if env.pathExists projectEslint then
    some { cmd := projectEslint, args := ["-f=json"],
           filetypes := ["js", "tsx", "vue", "svelte"] }
  else
    none

/-- stylelint.rs `is_installed`: only the project-local
`node_modules/.bin/stylelint` path is probed; there is no global fallback. -/
def stylelintIsInstalled (env : ProbeEnv) (rootUri : String) : Option PluginSetting :=
  let projectRoot := stripFileScheme rootUri
  let projectStylelint := projectRoot ++ "/node_modules/.bin/stylelint"
  if env.pathExists projectStylelint then
    some { cmd := projectStylelint, args := ["-f=json"],
           filetypes := ["css", "less", "sass"] }
  else
    none

/-- phpcs.rs `is_installed`: project-local `vendor/bin/phpcs` first, then a
spawn of the bare name `phpcs` as global fallback. -/
def phpcsIsInstalled (env : ProbeEnv) (rootUri : String) : Option PluginSetting :=
  let projectRoot := stripFileScheme rootUri
  let projectPhpcs := projectRoot ++ "/vendor/bin/phpcs"
  if env.pathExists projectPhpcs then
    some { cmd := projectPhpcs, args := ["--report=json"], filetypes := ["php"] }
  else if env.spawnOk "phpcs" then
    some { cmd := "phpcs", args := ["--report=json"], filetypes := ["php"] }
  else
    none

/-- phpstan.rs `is_installed`: project-local `vendor/bin/phpstan` first, then
a spawn of the bare name `phpstan` as global fallback. -/
def phpstanIsInstalled (env : ProbeEnv) (rootUri : String) : Option PluginSetting :=
  let projectRoot := stripFileScheme rootUri
  let projectPhpstan := projectRoot ++ "/vendor/bin/phpstan"
  if env.pathExists projectPhpstan then
    some { cmd := projectPhpstan, args := ["analyse", "--error-format=json"],
           filetypes := ["php"] }
  else if env.spawnOk "phpstan" then
    some { cmd := "phpstan", args := ["analyse", "--error-format=json"],
           filetypes := ["php"] }
  else
    none

/-! ### Report shapes (the fields each `run` actually reads) -/

/-- eslint.rs `FileMessage` (severity/line/column are i64 in the source). -/
structure EslintFileMessage where
  severity : Int
  message : String
  line : Int
  column : Int
deriving DecidableEq, Repr

/-- eslint.rs `FileReport` (only `messages` is read by `run`). -/
structure EslintFileReport where
  messages : List EslintFileMessage
deriving DecidableEq, Repr

/-- eslint.rs `EslintReport = Vec<FileReport>`. -/
abbrev EslintReport := List EslintFileReport

/-- phpcs.rs `FileMessage` (line/column are u32 in the source). -/
structure PhpcsFileMessage where
  message : String
  type_field : String
  line : Nat
  column : Nat
deriving DecidableEq, Repr

/-- phpcs.rs `FileReport` (only `messages` is read by `run`). -/
structure PhpcsFileReport where
  messages : List PhpcsFileMessage
deriving DecidableEq, Repr

/-- phpcs.rs `PhpcsReport`: `files` is a `HashMap<String, FileReport>`,
modelled as an association list iterated in list order (the source iterates
`files.values()` in unspecified order; no claim depends on the order). -/
structure PhpcsReport where
  files : List (String × PhpcsFileReport)
deriving DecidableEq, Repr

/-- phpstan.rs `FileMessage` (line is u32 in the source). -/
structure PhpstanFileMessage where
  message : String
  line : Nat
deriving DecidableEq, Repr

/-- phpstan.rs `FileReport`. -/
structure PhpstanFileReport where
  messages : List PhpstanFileMessage
deriving DecidableEq, Repr

/-- phpstan.rs `PhpstanReport` (`files : HashMap<String, FileReport>`). -/
structure PhpstanReport where
  files : List (String × PhpstanFileReport)
deriving DecidableEq, Repr

/-- stylelint.rs `FileMessage` (all position fields are i64 in the source). -/
structure StylelintFileMessage where
  line : Int
  column : Int
  end_line : Int
  end_column : Int
  severity : String
  text : String
deriving DecidableEq, Repr

/-- stylelint.rs `FileReport` (only `warnings` is read by `run`). -/
structure StylelintFileReport where
  warnings : List StylelintFileMessage
deriving DecidableEq, Repr

/-- stylelint.rs `StylelintReport = Vec<FileReport>`. -/
abbrev StylelintReport := List StylelintFileReport

/-! ### Diagnostic normalizers (the Range/severity construction in each run) -/

/-- Rust `i64::try_into::<u32>().unwrap()`: panics (here `none`) outside u32. -/
def i64ToU32 (i : Int) : Option Nat :=
  if 0 ≤ i ∧ i < 4294967296 then some i.toNat else none

/-- u32 subtraction with overflow check, as in a checked (debug) build; the
claims only exercise it on inputs where no underflow occurs. -/
def u32Sub (a b : Nat) : Option Nat :=
  if b ≤ a then some (a - b) else none

/-- eslint.rs run, severity match: 1 ⇒ warning, 2 ⇒ error, else the
`DiagnosticSeverity::INFORMATION` initial value. -/
def eslintSeverity (s : Int) : DiagnosticSeverity :=
  if s = 1 then .warning else if s = 2 then .error else .information

/-- phpcs.rs run, severity match on `type`: "WARNING" ⇒ warning,
"ERROR" ⇒ error, else information. -/
def phpcsSeverity (t : String) : DiagnosticSeverity :=
  if t = "WARNING" then .warning else if t = "ERROR" then .error else .information

/-- stylelint.rs run, severity match: "warning" ⇒ warning, "error" ⇒ error,
else information. -/
def stylelintSeverity (s : String) : DiagnosticSeverity :=
  if s = "warning" then .warning else if s = "error" then .error else .information

/-- eslint.rs run, lines 119-145: start = end = (line-1, column as reported). -/
def eslintNormalize (m : EslintFileMessage) : Option Diagnostic := do
  let lineU ← i64ToU32 m.line
  let line ← u32Sub lineU 1
  let col ← i64ToU32 m.column
  pure { range := { start := { line := line, character := col },
                    stop := { line := line, character := col } },
         severity := some (eslintSeverity m.severity),
         message := m.message }

/-- phpcs.rs run, lines 130-155: start = end = (line-1, column as reported). -/
def phpcsNormalize (m : PhpcsFileMessage) : Option Diagnostic := do
  let line ← u32Sub m.line 1
  pure { range := { start := { line := line, character := m.column },
                    stop := { line := line, character := m.column } },
         severity := some (phpcsSeverity m.type_field),
         message := m.message }

/-- phpstan.rs run, lines 109-126: start = end = (line-1, fixed character 1),
severity always `ERROR`. -/
def phpstanNormalize (m : PhpstanFileMessage) : Option Diagnostic := do
  let line ← u32Sub m.line 1
  pure { range := { start := { line := line, character := 1 },
                    stop := { line := line, character := 1 } },
         severity := some DiagnosticSeverity.error,
         message := m.message }

/-- stylelint.rs run, lines 109-137: start = (line-1, column), end =
(end_line-1, column). Note the end position reuses `message.column`; the
parsed `end_column` field is never read. -/
def stylelintNormalize (m : StylelintFileMessage) : Option Diagnostic := do
  let lineU ← i64ToU32 m.line
  let line ← u32Sub lineU 1
  let endLineU ← i64ToU32 m.end_line
  let endLine ← u32Sub endLineU 1
  let col ← i64ToU32 m.column
  pure { range := { start := { line := line, character := col },
                    stop := { line := endLine, character := col } },
         severity := some (stylelintSeverity m.severity),
         message := m.text }

/-! ### Run functions -/

/-- Captured output of a spawned subprocess: raw stdout bytes and captured
stderr text (the source only inspects stderr for emptiness, and logs it). -/
structure ProcOutput where
  stdout : List Nat
  stderr : String
deriving DecidableEq, Repr

/-- Panics a run can hit: the `.expect("failed to execute process")` on a
failed spawn, and the `try_into().unwrap()` / u32-underflow conversions while
building diagnostics. -/
inductive RunPanic where
  | spawnExpectFailed
  | conversionUnwrapFailed
deriving DecidableEq, Repr

/-- Observable outcome of a run that did not panic: the
`client.publish_diagnostics` calls it made (one list per file report, in
order) and the value returned to the dispatcher. -/
structure RunResult where
  published : List (List Diagnostic)
  retval : Option PluginOutput
deriving DecidableEq, Repr

/-- Normalizes every message of a list; `none` if any single message panics.
A panic mid-list aborts the whole pass, so earlier publishes are not kept
(no claim depends on publishes made before a panic). -/
def normalizeAll (f : α → Option Diagnostic) : List α → Option (List Diagnostic)
  | [] => some []
  | m :: rest =>
    match f m, normalizeAll f rest with
    | some d, some ds => some (d :: ds)
    | _, _ => none

/-- One diagnostics list per file report; `none` if any message panics. -/
def collectPublishes (diagsOf : φ → Option (List Diagnostic)) :
    List φ → Option (List (List Diagnostic))
  | [] => some []
  | fr :: rest =>
    match diagsOf fr, collectPublishes diagsOf rest with
    | some ds, some tl => some (ds :: tl)
    | _, _ => none

/-- eslint.rs `run`: panic if spawn failed; return `none` (publishing
nothing) on non-empty stderr; otherwise parse stdout with
`unwrap_or_default`, build the per-file diagnostics — and drop them: the
loop's `diagnostics` vector is never published — then return `none`. -/
def eslintRun (parse : List Nat → Option EslintReport) (spawn : Option ProcOutput) :
    Except RunPanic RunResult :=
  match spawn with
  | none => .error .spawnExpectFailed
  | some output =>
    if output.stderr ≠ "" then
      .ok { published := [], retval := none }
    else
      let report := (parse output.stdout).getD []
      match collectPublishes (fun fr => normalizeAll eslintNormalize fr.messages) report with
      | none => .error .conversionUnwrapFailed
      | some _ => .ok { published := [], retval := none }

/-- phpcs.rs `run`: panic if spawn failed; `none` with nothing published on
non-empty stderr; otherwise parse with `unwrap_or_default` and publish one
diagnostics list per file report, then return `none`. -/
def phpcsRun (parse : List Nat → Option PhpcsReport) (spawn : Option ProcOutput) :
    Except RunPanic RunResult :=
  match spawn with
  | none => .error .spawnExpectFailed
  | some output =>
    if output.stderr ≠ "" then
      .ok { published := [], retval := none }
    else
      let report := (parse output.stdout).getD { files := [] }
      match collectPublishes (fun f => normalizeAll phpcsNormalize f.2.messages) report.files with
      | none => .error .conversionUnwrapFailed
      | some pubs => .ok { published := pubs, retval := none }

/-- phpstan.rs `run`: panic if spawn failed; stderr is NEVER inspected — the
function goes straight to parsing stdout with `unwrap_or_default` and
publishes one diagnostics list per file report, then returns `none`. -/
def phpstanRun (parse : List Nat → Option PhpstanReport) (spawn : Option ProcOutput) :
    Except RunPanic RunResult :=
  match spawn with
  | none => .error .spawnExpectFailed
  | some output =>
    let report := (parse output.stdout).getD { files := [] }
    match collectPublishes (fun f => normalizeAll phpstanNormalize f.2.messages) report.files with
    | none => .error .conversionUnwrapFailed
    | some pubs => .ok { published := pubs, retval := none }

/-- stylelint.rs `run`: panic if spawn failed; `none` with nothing published
on non-empty stderr; otherwise parse with `unwrap_or_default` and publish one
diagnostics list per file report, then return `none`. -/
def stylelintRun (parse : List Nat → Option StylelintReport) (spawn : Option ProcOutput) :
    Except RunPanic RunResult :=
  match spawn with
  | none => .error .spawnExpectFailed
  | some output =>
    if output.stderr ≠ "" then
      .ok { published := [], retval := none }
    else
      let report := (parse output.stdout).getD []
      match collectPublishes (fun fr => normalizeAll stylelintNormalize fr.warnings) report with
      | none => .error .conversionUnwrapFailed
      | some pubs => .ok { published := pubs, retval := none }

/-! ### Save dispatch (lsp.rs `did_save`, lines 184-254) -/

/-- Splits a character list at every occurrence of `c` (Rust `split`
semantics: the empty list splits to one empty piece). -/
def splitOnChar (c : Char) : List Char → List (List Char)
  | [] => [[]]
  | x :: xs =>
    let r := splitOnChar c xs
    if x = c then [] :: r
    else
      match r with
      | [] => [[x]]
      | y :: ys => (x :: y) :: ys

/-- Rust `Path::extension()` on the saved file's path: the part of the file
name after the last dot; `none` when the file name holds no dot, or is a
dotfile whose single dot is the leading one. -/
def pathExtension (p : String) : Option String :=
  let fileName := (splitOnChar '/' p.data).getLastD []
  match splitOnChar '.' fileName with
  | [] => none
  | [_] => none
  | [[], _] => none
  | parts => some (String.mk (parts.getLastD []))

/-- Panics `did_save` can hit at lsp.rs line 208:
`uri.to_file_path().unwrap()` on a uri with no file path, and
`.extension().unwrap()` on an extensionless path. -/
inductive SavePanic where
  | toFilePathUnwrapFailed
  | extensionUnwrapFailed
deriving DecidableEq, Repr

/-- lsp.rs lines 228-249: a returned `PluginLineOutput` becomes a published
`Diagnostic`. -/
def messageToDiagnostic (m : PluginLineOutput) : Diagnostic :=
  { range := { start := { line := m.position.line, character := m.position.column },
               stop := { line := m.position.line_end, character := m.position.column_end } },
    severity := some m.severity,
    message := m.text }

/-- The loop of `did_save` over the installed plugins: per entry it unwraps
the file path and its extension (both can panic), skips the plugin when the
extension is not in its `filetypes`, calls its `run`, skips on `none`, and
otherwise appends the returned messages as diagnostics. -/
def didSaveCollect (runOf : String → PluginSetting → Option PluginOutput) :
    Option String → List (String × PluginSetting) → List Diagnostic →
    Except SavePanic (List Diagnostic)
  | _, [], acc => .ok acc
  | none, _ :: _, _ => .error .toFilePathUnwrapFailed
  | some p, (id, settings) :: rest, acc =>
    match pathExtension p with
    | none => .error .extensionUnwrapFailed
    | some ext =>
      if settings.filetypes.contains ext then
        match runOf id settings with
        | none => didSaveCollect runOf (some p) rest acc
        | some output =>
          didSaveCollect runOf (some p) rest
            (acc ++ output.messages.map messageToDiagnostic)
      else
        didSaveCollect runOf (some p) rest acc

/-- lsp.rs `did_save`: iterates the installed plugins collecting diagnostics
from each run's return value, then publishes the collected list once
(replace semantics). The result is the list passed to that final
`publish_diagnostics` call, or the panic that aborted the pass. -/
def didSave (plugins : List (String × PluginSetting)) (filePath : Option String)
    (runOf : String → PluginSetting → Option PluginOutput) :
    Except SavePanic (List Diagnostic) :=
  didSaveCollect runOf filePath plugins []

/-- Helper: in an `Except` value known to be a given `.ok`, any `.ok`
hypothesis determines its payload. -/
theorem except_ok_inv {ε α : Type} (x : Except ε α) (v : α) (hx : x = .ok v)
    (r : α) (h : x = .ok r) : r = v := by
  rw [hx] at h
  injection h with h2
  exact h2.symm

/-- Helper: when every run returns `none`, the `did_save` loop never extends
its accumulator, so an `.ok` result is exactly the starting accumulator. -/
theorem didSaveCollect_eq_acc_of_none (runOf : String → PluginSetting → Option PluginOutput)
    (filePath : Option String) (hrun : ∀ id s, runOf id s = none) :
    ∀ (ps : List (String × PluginSetting)) (acc l : List Diagnostic),
      didSaveCollect runOf filePath ps acc = .ok l → l = acc := by
  intro ps
  induction ps with
  | nil =>
    intro acc l h
    cases filePath <;> simp only [didSaveCollect] at h <;> (injection h with h2; exact h2.symm)
  | cons hd tl ih =>
    intro acc l h
    obtain ⟨id, settings⟩ := hd
    cases filePath with
    | none => simp [didSaveCollect] at h
    | some p =>
      simp only [didSaveCollect] at h
      split at h
      · simp at h
      · split at h
        · split at h
          · exact ih acc l h
          · next output hout =>
            rw [hrun id settings] at hout
            cases hout
        · exact ih acc l h

end Checkmate

namespace Checkmate

/-! ### Claim theorems -/

/-- C1 counterexample: the claim says a non-empty `filetypes` override fully
replaces the adapter defaults; on default `["js","tsx"]` with override
`["ts"]` the resolver instead yields `["js","tsx","ts"]`, not `["ts"]`. -/
theorem c1_filetypes_replace_counterexample :
    (mergePluginSettings { cmd := "eslint", args := ["-f=json"], filetypes := ["js", "tsx"] }
        { cmd := "", args := [], filetypes := ["ts"] }).filetypes = ["js", "tsx", "ts"] ∧
    (mergePluginSettings { cmd := "eslint", args := ["-f=json"], filetypes := ["js", "tsx"] }
        { cmd := "", args := [], filetypes := ["ts"] }).filetypes ≠ ["ts"] := by
  constructor
  · rfl
  · decide

/-- C1 (amended): a non-empty `filetypes` override is appended after the
adapter's default list (the same append policy as `args`); an empty override
keeps the defaults. -/
theorem c1_filetypes_merge_appends (d s : PluginSetting) :
    (mergePluginSettings d s).filetypes =
      if s.filetypes = [] then d.filetypes else d.filetypes ++ s.filetypes := rfl

/-- C2 counterexample: a phpstan invocation with non-empty stderr "boom" and
a stdout that parses to one message still publishes that message as a
diagnostic — phpstan never inspects stderr, so the claim fails for it. -/
theorem c2_stderr_counterexample :
    phpstanRun
        (fun _ => some { files := [("a.php", { messages := [{ message := "X", line := 10 }] })] })
        (some { stdout := [], stderr := "boom" })
      = .ok { published := [[{ range := { start := { line := 9, character := 1 },
                                          stop := { line := 9, character := 1 } },
                               severity := some DiagnosticSeverity.error,
                               message := "X" }]],
              retval := none } ∧
    "boom" ≠ "" := by
  constructor
  · rfl
  · decide

/-- C2 (amended): for the eslint, phpcs and stylelint adapters a non-empty
stderr makes the whole invocation a tool error — nothing is published and
`none` is returned even if stdout would parse; the phpstan adapter however
never inspects stderr, behaving exactly as it would on empty stderr. -/
theorem c2_stderr_suppresses_diagnostics_except_phpstan
    (parseE : List Nat → Option EslintReport)
    (parseC : List Nat → Option PhpcsReport)
    (parseS : List Nat → Option StylelintReport)
    (parseP : List Nat → Option PhpstanReport)
    (out : ProcOutput) (h : out.stderr ≠ "") :
    eslintRun parseE (some out) = .ok { published := [], retval := none } ∧
    phpcsRun parseC (some out) = .ok { published := [], retval := none } ∧
    stylelintRun parseS (some out) = .ok { published := [], retval := none } ∧
    phpstanRun parseP (some out)
      = phpstanRun parseP (some { stdout := out.stdout, stderr := "" }) := by
  refine ⟨?_, ?_, ?_, ?_⟩
  · simp [eslintRun, h]
  · simp [phpcsRun, h]
  · simp [stylelintRun, h]
  · rfl

/-- C2 witness: a concrete invocation with stderr "err" exercises the
amended theorem. -/
theorem c2_amended_witness :
    eslintRun (fun _ => none) (some { stdout := [], stderr := "err" })
      = .ok { published := [], retval := none } ∧
    phpcsRun (fun _ => none) (some { stdout := [], stderr := "err" })
      = .ok { published := [], retval := none } ∧
    stylelintRun (fun _ => none) (some { stdout := [], stderr := "err" })
      = .ok { published := [], retval := none } ∧
    phpstanRun (fun _ => none) (some { stdout := [], stderr := "err" })
      = phpstanRun (fun _ => none) (some { stdout := [], stderr := "" }) :=
  c2_stderr_suppresses_diagnostics_except_phpstan
    (fun _ => none) (fun _ => none) (fun _ => none) (fun _ => none)
    { stdout := [], stderr := "err" } (by decide)

/-- C3: at the failing input (a configured command that fails to spawn), each
adapter's run hits `.expect("failed to execute process")` — a panic that is
process-fatal, not a caught per-plugin error as the spec requires. -/
theorem c3_spawn_failure_panics :
    eslintRun (fun _ => none) none = .error .spawnExpectFailed ∧
    phpcsRun (fun _ => none) none = .error .spawnExpectFailed ∧
    phpstanRun (fun _ => none) none = .error .spawnExpectFailed ∧
    stylelintRun (fun _ => none) none = .error .spawnExpectFailed :=
  ⟨rfl, rfl, rfl, rfl⟩

/-- C4: every adapter's run returns `none` to the dispatcher on every
non-panicking input (eslint moreover publishes nothing itself), so the
diagnostics list `did_save` hands to its final `publish_diagnostics` call is
always empty. -/
theorem c4_dispatch_always_publishes_empty :
    (∀ (parse : List Nat → Option EslintReport) (spawn : Option ProcOutput) (r : RunResult),
        eslintRun parse spawn = .ok r → r.retval = none ∧ r.published = []) ∧
    (∀ (parse : List Nat → Option PhpcsReport) (spawn : Option ProcOutput) (r : RunResult),
        phpcsRun parse spawn = .ok r → r.retval = none) ∧
    (∀ (parse : List Nat → Option PhpstanReport) (spawn : Option ProcOutput) (r : RunResult),
        phpstanRun parse spawn = .ok r → r.retval = none) ∧
    (∀ (parse : List Nat → Option StylelintReport) (spawn : Option ProcOutput) (r : RunResult),
        stylelintRun parse spawn = .ok r → r.retval = none) ∧
    (∀ (plugins : List (String × PluginSetting)) (filePath : Option String)
        (runOf : String → PluginSetting → Option PluginOutput),
        (∀ id s, runOf id s = none) →
        ∀ l, didSave plugins filePath runOf = .ok l → l = []) := by
  refine ⟨?_, ?_, ?_, ?_, ?_⟩
  · intro parse spawn r h
    cases spawn with
    | none => simp [eslintRun] at h
    | some out =>
      by_cases hs : out.stderr = ""
      · cases hp : collectPublishes (fun fr => normalizeAll eslintNormalize fr.messages)
            ((parse out.stdout).getD []) with
        | none =>
          have hx : eslintRun parse (some out) = .error .conversionUnwrapFailed := by
            simp [eslintRun, hs, hp]
          rw [hx] at h
          exact Except.noConfusion h
        | some pubs =>
          have hx : eslintRun parse (some out) = .ok { published := [], retval := none } := by
            simp [eslintRun, hs, hp]
          rw [except_ok_inv _ _ hx r h]
          exact ⟨rfl, rfl⟩
      · have hx : eslintRun parse (some out) = .ok { published := [], retval := none } := by
          simp [eslintRun, hs]
        rw [except_ok_inv _ _ hx r h]
        exact ⟨rfl, rfl⟩
  · intro parse spawn r h
    cases spawn with
    | none => simp [phpcsRun] at h
    | some out =>
      by_cases hs : out.stderr = ""
      · cases hp : collectPublishes (fun f => normalizeAll phpcsNormalize f.2.messages)
            ((parse out.stdout).getD { files := [] }).files with
        | none =>
          have hx : phpcsRun parse (some out) = .error .conversionUnwrapFailed := by
            simp [phpcsRun, hs, hp]
          rw [hx] at h
          exact Except.noConfusion h
        | some pubs =>
          have hx : phpcsRun parse (some out) = .ok { published := pubs, retval := none } := by
            simp [phpcsRun, hs, hp]
          rw [except_ok_inv _ _ hx r h]
      · have hx : phpcsRun parse (some out) = .ok { published := [], retval := none } := by
          simp [phpcsRun, hs]
        rw [except_ok_inv _ _ hx r h]
  · intro parse spawn r h
    cases spawn with
    | none => simp [phpstanRun] at h
    | some out =>
      cases hp : collectPublishes (fun f => normalizeAll phpstanNormalize f.2.messages)
          ((parse out.stdout).getD { files := [] }).files with
      | none =>
        have hx : phpstanRun parse (some out) = .error .conversionUnwrapFailed := by
          simp [phpstanRun, hp]
        rw [hx] at h
        exact Except.noConfusion h
      | some pubs =>
        have hx : phpstanRun parse (some out) = .ok { published := pubs, retval := none } := by
          simp [phpstanRun, hp]
        rw [except_ok_inv _ _ hx r h]
  · intro parse spawn r h
    cases spawn with
    | none => simp [stylelintRun] at h
    | some out =>
      by_cases hs : out.stderr = ""
      · cases hp : collectPublishes (fun fr => normalizeAll stylelintNormalize fr.warnings)
            ((parse out.stdout).getD []) with
        | none =>
          have hx : stylelintRun parse (some out) = .error .conversionUnwrapFailed := by
            simp [stylelintRun, hs, hp]
          rw [hx] at h
          exact Except.noConfusion h
        | some pubs =>
          have hx : stylelintRun parse (some out) = .ok { published := pubs, retval := none } := by
            simp [stylelintRun, hs, hp]
          rw [except_ok_inv _ _ hx r h]
      · have hx : stylelintRun parse (some out) = .ok { published := [], retval := none } := by
          simp [stylelintRun, hs]
        rw [except_ok_inv _ _ hx r h]
  · intro plugins filePath runOf hrun l h
    exact didSaveCollect_eq_acc_of_none runOf filePath hrun plugins [] l h

/-- C4 witness: a concrete save over one installed plugin whose run returns
`none` publishes the empty list, and a concrete non-panicking eslint run
returns `none` having published nothing. -/
theorem c4_witness :
    didSave [("phpcs", { cmd := "phpcs", args := ["--report=json"], filetypes := ["php"] })]
        (some "/tmp/a.php") (fun _ _ => none) = .ok [] ∧
    ([] : List Diagnostic) = [] ∧
    (RunResult.retval { published := [], retval := none } = none ∧
     RunResult.published { published := [], retval := none } = ([] : List (List Diagnostic))) :=
  ⟨rfl,
   c4_dispatch_always_publishes_empty.2.2.2.2
     [("phpcs", { cmd := "phpcs", args := ["--report=json"], filetypes := ["php"] })]
     (some "/tmp/a.php") (fun _ _ => none) (fun _ _ => rfl) [] rfl,
   c4_dispatch_always_publishes_empty.1 (fun _ => none) (some { stdout := [], stderr := "" })
     { published := [], retval := none } rfl⟩

/-- C5 counterexample: a stylelint message with column 2 and endColumn 7 is
normalized with end character 2 — the code reuses the start column for the
end position and never reads the parsed `end_column` field, contradicting
the claim that the end column comes from the tool's own end-column field. -/
theorem c5_end_column_counterexample :
    stylelintNormalize { line := 5, column := 2, end_line := 6, end_column := 7,
                         severity := "error", text := "bad" }
      = some { range := { start := { line := 4, character := 2 },
                          stop := { line := 5, character := 2 } },
               severity := some DiagnosticSeverity.error, message := "bad" } ∧
    (2 : Nat) ≠ 7 := by
  constructor
  · rfl
  · decide

/-- C5 (amended): a stylelint message normalizes to start line `line - 1`,
end line `endLine - 1` (so start and end lines may differ), with BOTH the
start and end columns equal to the tool's start column used as-is; the
endColumn field is ignored. -/
theorem c5_stylelint_range (m : StylelintFileMessage)
    (hl : 1 ≤ m.line) (hl2 : m.line < 4294967296)
    (he : 1 ≤ m.end_line) (he2 : m.end_line < 4294967296)
    (hc : 0 ≤ m.column) (hc2 : m.column < 4294967296) :
    stylelintNormalize m
      = some { range := { start := { line := m.line.toNat - 1, character := m.column.toNat },
                          stop := { line := m.end_line.toNat - 1, character := m.column.toNat } },
               severity := some (stylelintSeverity m.severity),
               message := m.text } := by
  have h0 : (0:Int) ≤ m.line := by omega
  have h0e : (0:Int) ≤ m.end_line := by omega
  have hn : 1 ≤ m.line.toNat := by omega
  have hne : 1 ≤ m.end_line.toNat := by omega
  simp [stylelintNormalize, i64ToU32, u32Sub, h0, h0e, hl2, he2, hc, hc2, hn, hne]

/-- C5 witness: the amended range law evaluated on a concrete multi-line
stylelint warning. -/
theorem c5_amended_witness :
    stylelintNormalize { line := 5, column := 2, end_line := 6, end_column := 7,
                         severity := "warning", text := "w" }
      = some { range := { start := { line := 4, character := 2 },
                          stop := { line := 5, character := 2 } },
               severity := some (stylelintSeverity "warning"), message := "w" } := by
  have h := c5_stylelint_range
    { line := 5, column := 2, end_line := 6, end_column := 7, severity := "warning", text := "w" }
    (by decide) (by decide) (by decide) (by decide) (by decide) (by decide)
  simpa using h

/-- C6: an eslint message with 1-indexed line n yields a point diagnostic at
line n-1 with the reported column used as-is; a phpstan message with
1-indexed line m yields a point diagnostic at line m-1 with the fixed
sentinel column 1 (the code always writes character 1). -/
theorem c6_eslint_phpstan_normalization (me : EslintFileMessage) (mp : PhpstanFileMessage)
    (h1 : 1 ≤ me.line) (h2 : me.line < 4294967296)
    (h3 : 0 ≤ me.column) (h4 : me.column < 4294967296)
    (h5 : 1 ≤ mp.line) :
    eslintNormalize me
      = some { range := { start := { line := me.line.toNat - 1, character := me.column.toNat },
                          stop := { line := me.line.toNat - 1, character := me.column.toNat } },
               severity := some (eslintSeverity me.severity),
               message := me.message } ∧
    phpstanNormalize mp
      = some { range := { start := { line := mp.line - 1, character := 1 },
                          stop := { line := mp.line - 1, character := 1 } },
               severity := some DiagnosticSeverity.error,
               message := mp.message } := by
  have h0 : (0:Int) ≤ me.line := by omega
  have hn : 1 ≤ me.line.toNat := by omega
  constructor
  · simp [eslintNormalize, i64ToU32, u32Sub, h0, h2, h3, h4, hn]
  · simp [phpstanNormalize, u32Sub, h5]

/-- C6 witness: raw eslint line 5 maps to diagnostic line 4 (point range,
column as reported); raw phpstan line 10 maps to line 9, sentinel column 1,
start equal to end. -/
theorem c6_witness :
    eslintNormalize { severity := 2, message := "e", line := 5, column := 3 }
      = some { range := { start := { line := 4, character := 3 },
                          stop := { line := 4, character := 3 } },
               severity := some (eslintSeverity 2), message := "e" } ∧
    phpstanNormalize { message := "p", line := 10 }
      = some { range := { start := { line := 9, character := 1 },
                          stop := { line := 9, character := 1 } },
               severity := some DiagnosticSeverity.error, message := "p" } := by
  have h := c6_eslint_phpstan_normalization
    { severity := 2, message := "e", line := 5, column := 3 }
    { message := "p", line := 10 }
    (by decide) (by decide) (by decide) (by decide) (by decide)
  simpa using h

/-- C7 counterexample: with no project-local binary anywhere and every bare
tool name spawnable, the eslint and stylelint probes still return nothing —
they have no global-binary fallback step, so the claim fails for them. -/
theorem c7_no_global_fallback_counterexample :
    eslintIsInstalled { pathExists := fun _ => false, spawnOk := fun _ => true }
        "file:///proj" = none ∧
    stylelintIsInstalled { pathExists := fun _ => false, spawnOk := fun _ => true }
        "file:///proj" = none ∧
    ProbeEnv.spawnOk { pathExists := fun _ => false, spawnOk := fun _ => true } "eslint"
      = true :=
  ⟨rfl, rfl, rfl⟩

/-- C7 (amended): only the phpcs and phpstan probes fall back to spawning the
bare tool name when the project-local path is missing (bare name as `cmd` on
success, nothing when neither check succeeds); the eslint and stylelint
probes return nothing as soon as the project-local path is missing. -/
theorem c7_probe_fallback_by_adapter (env : ProbeEnv) (root : String)
    (hpc : env.pathExists (stripFileScheme root ++ "/vendor/bin/phpcs") = false)
    (hps : env.pathExists (stripFileScheme root ++ "/vendor/bin/phpstan") = false)
    (hes : env.pathExists (stripFileScheme root ++ "/node_modules/.bin/eslint") = false)
    (hst : env.pathExists (stripFileScheme root ++ "/node_modules/.bin/stylelint") = false) :
    phpcsIsInstalled env root
      = (if env.spawnOk "phpcs"
         then some { cmd := "phpcs", args := ["--report=json"], filetypes := ["php"] }
         else none) ∧
    phpstanIsInstalled env root
      = (if env.spawnOk "phpstan"
         then some { cmd := "phpstan", args := ["analyse", "--error-format=json"],
                     filetypes := ["php"] }
         else none) ∧
    eslintIsInstalled env root = none ∧
    stylelintIsInstalled env root = none := by
  refine ⟨?_, ?_, ?_, ?_⟩
  · simp [phpcsIsInstalled, hpc]
  · simp [phpstanIsInstalled, hps]
  · simp [eslintIsInstalled, hes]
  · simp [stylelintIsInstalled, hst]

/-- C7 witness: concrete probe outcomes (no local binaries, all bare names
spawnable) exercising the amended fallback law. -/
theorem c7_amended_witness :
    phpcsIsInstalled { pathExists := fun _ => false, spawnOk := fun _ => true } "file:///proj"
      = some { cmd := "phpcs", args := ["--report=json"], filetypes := ["php"] } ∧
    phpstanIsInstalled { pathExists := fun _ => false, spawnOk := fun _ => true } "file:///proj"
      = some { cmd := "phpstan", args := ["analyse", "--error-format=json"],
               filetypes := ["php"] } ∧
    eslintIsInstalled { pathExists := fun _ => false, spawnOk := fun _ => true } "file:///proj"
      = none ∧
    stylelintIsInstalled { pathExists := fun _ => false, spawnOk := fun _ => true } "file:///proj"
      = none := by
  have h := c7_probe_fallback_by_adapter
    { pathExists := fun _ => false, spawnOk := fun _ => true } "file:///proj"
    rfl rfl rfl rfl
  simpa using h

/-- C8: the resolved args list is always the adapter's defaults followed by
the client override's args tokens in order — override args are appended,
never replacing. -/
theorem c8_args_merge_appends (d s : PluginSetting) :
    (mergePluginSettings d s).args = d.args ++ s.args := rfl

/-- C9: with empty stderr and a stdout that fails to parse as the plugin's
report shape, every adapter's run completes without panic, publishes
nothing, and returns `none` (the `unwrap_or_default` empty report). -/
theorem c9_parse_failure_yields_empty
    (parseE : List Nat → Option EslintReport)
    (parseC : List Nat → Option PhpcsReport)
    (parseP : List Nat → Option PhpstanReport)
    (parseS : List Nat → Option StylelintReport)
    (out : ProcOutput) (hstderr : out.stderr = "")
    (hE : parseE out.stdout = none) (hC : parseC out.stdout = none)
    (hP : parseP out.stdout = none) (hS : parseS out.stdout = none) :
    eslintRun parseE (some out) = .ok { published := [], retval := none } ∧
    phpcsRun parseC (some out) = .ok { published := [], retval := none } ∧
    phpstanRun parseP (some out) = .ok { published := [], retval := none } ∧
    stylelintRun parseS (some out) = .ok { published := [], retval := none } := by
  refine ⟨?_, ?_, ?_, ?_⟩
  · simp [eslintRun, hstderr, hE, collectPublishes]
  · simp [phpcsRun, hstderr, hC, collectPublishes]
  · simp [phpstanRun, hP, collectPublishes]
  · simp [stylelintRun, hstderr, hS, collectPublishes]

/-- C9 witness: a concrete invocation with empty stderr and unparseable
stdout bytes yields the empty outcome for all four adapters. -/
theorem c9_witness :
    eslintRun (fun _ => none) (some { stdout := [0], stderr := "" })
      = .ok { published := [], retval := none } ∧
    phpcsRun (fun _ => none) (some { stdout := [0], stderr := "" })
      = .ok { published := [], retval := none } ∧
    phpstanRun (fun _ => none) (some { stdout := [0], stderr := "" })
      = .ok { published := [], retval := none } ∧
    stylelintRun (fun _ => none) (some { stdout := [0], stderr := "" })
      = .ok { published := [], retval := none } :=
  c9_parse_failure_yields_empty
    (fun _ => none) (fun _ => none) (fun _ => none) (fun _ => none)
    { stdout := [0], stderr := "" } rfl rfl rfl rfl rfl

/-- C10: with a non-empty installed plugin set, a save of a file whose path
has no extension panics on the `.extension().unwrap()` of the filetype
check, and a save whose uri has no file path panics on the
`.to_file_path().unwrap()` — the pass aborts instead of skipping the plugin
or reporting an error. -/
theorem c10_extensionless_save_panics (id : String) (s : PluginSetting)
    (rest : List (String × PluginSetting)) (p : String)
    (runOf : String → PluginSetting → Option PluginOutput)
    (hext : pathExtension p = none) :
    didSave ((id, s) :: rest) (some p) runOf = .error .extensionUnwrapFailed ∧
    didSave ((id, s) :: rest) none runOf = .error .toFilePathUnwrapFailed := by
  constructor
  · simp [didSave, didSaveCollect, hext]
  · simp [didSave, didSaveCollect]

/-- C10 witness: saving the extensionless path "/tmp/Makefile" with one
installed plugin panics the pass. -/
theorem c10_witness :
    didSave [("phpcs", PluginSetting.defaultSetting)] (some "/tmp/Makefile")
        (fun _ _ => none) = .error .extensionUnwrapFailed ∧
    didSave [("phpcs", PluginSetting.defaultSetting)] none
        (fun _ _ => none) = .error .toFilePathUnwrapFailed :=
  c10_extensionless_save_panics "phpcs" PluginSetting.defaultSetting [] "/tmp/Makefile"
    (fun _ _ => none) (by decide)

end Checkmate
